import Mathlib

/-!
Shallow embedding of the go-doctor-booking backend (Gin + GORM REST API).

The relational store is modelled as in-memory lists of rows; each Gin
handler becomes a Lean function from the store and the request data to
the new store and an HTTP response (status code plus JSON body).
External library calls that are not part of this repository — bcrypt
password hashing/checking, JWT token generation, and Gin's email-format
validator — are taken as function parameters of the handlers that use
them, so every theorem quantifies over them.
-/

namespace Booking

/-- JSON values, the shape of every response body the handlers emit. -/
inductive Json where
  | jnull : Json
  | jstr : String → Json
  | jnum : Int → Json
  | jbool : Bool → Json
  | jarr : List Json → Json
  | jobj : List (String × Json) → Json

/-- An HTTP response as produced by Gin's c.JSON: a status code and a body. -/
structure HResp where
  status : Nat
  body : Json

/-- Error responses in the code are always c.JSON(code, gin.H with a
single "error" key bound to a message string). -/
def errJson (msg : String) : Json := .jobj [("error", .jstr msg)]

/-- A Go time.Time, reduced to the calendar day and the minute of that day
(the only components the handlers inspect: DATE(...) comparisons and the
"15:04" clock format). -/
structure Timestamp where
  day : Nat
  minute : Nat
  deriving DecidableEq, Repr

/-- Go's zero time.Time; a `binding:"required"` time field fails
validation exactly when it holds this value. -/
def Timestamp.zero : Timestamp := ⟨0, 0⟩

/-- time.Time.Add of n minutes, with overflow into the next day
normalised the way Go's time package does. -/
def Timestamp.addMinutes (t : Timestamp) (n : Nat) : Timestamp :=
  ⟨t.day + (t.minute + n) / 1440, (t.minute + n) % 1440⟩

/-- Two-digit decimal rendering used by Go's "15" and "04" format verbs. -/
def pad2 (n : Nat) : String :=
  if n < 10 then "0" ++ toString n else toString n

/-- Go's Format("15:04") on a time whose minute-of-day is m. -/
def fmtHM (m : Nat) : String :=
  pad2 ((m % 1440) / 60) ++ ":" ++ pad2 (m % 60)

/-- models.User (backend/models/user.go), restricted to the columns the
verified handlers read or write. Password holds the bcrypt hash after
the BeforeCreate hook runs. -/
structure User where
  id : Nat
  name : String
  email : String
  password : String
  role : String
  active : Bool
  deriving DecidableEq, Repr

/-- models.Doctor, restricted to the columns the verified handlers use. -/
structure Doctor where
  id : Nat
  userId : Nat
  specialization : String
  qualification : String
  experience : Int
  bio : String
  consultationFee : Int
  available : Bool
  deriving DecidableEq, Repr

/-- models.Appointment (src/unnamed/part_011), restricted to the columns
the verified handlers use. -/
structure Appointment where
  id : Nat
  patientId : Nat
  doctorId : Nat
  appointmentDate : Timestamp
  startTime : Timestamp
  endTime : Timestamp
  status : String
  notes : String
  deriving DecidableEq, Repr

/-- The relational store: one list per table, plus the auto-increment
counters GORM keeps for primary keys. -/
structure DB where
  users : List User
  doctors : List Doctor
  appointments : List Appointment
  nextUserId : Nat
  nextDoctorId : Nat
  nextApptId : Nat
  deriving DecidableEq, Repr

/-- JSON marshalling of an appointment row (the fields the model keeps);
a time.Time is marshalled as its day/minute pair. -/
def tsJson (t : Timestamp) : Json :=
  .jobj [("day", .jnum t.day), ("minute", .jnum t.minute)]

def apptJson (a : Appointment) : Json :=
  .jobj [("id", .jnum a.id), ("patient_id", .jnum a.patientId),
    ("doctor_id", .jnum a.doctorId),
    ("appointment_date", tsJson a.appointmentDate),
    ("start_time", tsJson a.startTime), ("end_time", tsJson a.endTime),
    ("status", .jstr a.status), ("notes", .jstr a.notes)]

/-! ## Availability calculator (GetDoctorAvailability, part_015:100-165) -/

/-- One step of the slot-generation loop: while `cur` is strictly before
`stop`, emit Format("15:04") of `cur` and advance 30 minutes. The fuel
only bounds the iteration count; `stop - cur` steps always suffice
because every iteration advances `cur` by 30. -/
def genSlotsAux : Nat → Nat → Nat → List String
  | 0, _, _ => []
  | fuel + 1, cur, stop =>
    if cur < stop then fmtHM cur :: genSlotsAux fuel (cur + 30) stop else []

/-- The slot-generation loop of GetDoctorAvailability. -/
def genSlots (cur stop : Nat) : List String :=
  genSlotsAux (stop - cur) cur stop

/-- The fixed working window: startHour 9, endHour 17, duration 30. -/
def timeSlots : List String := genSlots (9 * 60) (17 * 60)

/-- Outcome of time.Parse("2006-01-02", dateStr) on the query parameter:
either malformed, or a calendar day. -/
inductive DateParam where
  | malformed : DateParam
  | valid : Nat → DateParam
  deriving DecidableEq, Repr

/-- The appointments the handler fetches: doctor_id matches and
DATE(appointment_date) is the requested day. No status filter. -/
def bookedAppointments (db : DB) (doctorID day : Nat) : List Appointment :=
  db.appointments.filter
    (fun a => a.doctorId == doctorID && a.appointmentDate.day == day)

/-- The booked start-time strings: each fetched appointment's StartTime
rendered with Format("15:04") (the code round-trips through "15:04:05",
which never fails and preserves the clock reading). -/
def bookedSlotStrings (db : DB) (doctorID day : Nat) : List String :=
  (bookedAppointments db doctorID day).map (fun a => fmtHM a.startTime.minute)

/-- GetDoctorAvailability: parse the date, look the doctor up by primary
key, generate the fixed slots, drop those whose string matches a booked
appointment's start time, and answer 200 with the remaining slots. -/
def getDoctorAvailability (db : DB) (doctorID : Nat) (date : DateParam) : HResp :=
  match date with
  | .malformed => ⟨400, errJson "Invalid date format. Use YYYY-MM-DD"⟩
  | .valid day =>
    match db.doctors.find? (fun d => d.id == doctorID) with
    | none => ⟨404, errJson "Doctor not found"⟩
    | some _ =>
      let booked := bookedSlotStrings db doctorID day
      let availableSlots := timeSlots.filter (fun s => !(booked.contains s))
      ⟨200, .jobj [("doctor_id", .jnum doctorID), ("date", .jnum day),
        ("available_slots", .jarr (availableSlots.map .jstr))]⟩

/-! ## Booking handler (BookAppointment, part_015:168-218) -/

/-- The booking request body. Gin's `binding:"required"` on a uint or
time.Time field rejects the Go zero value, which is also what an absent
JSON field decodes to. -/
structure BookRequest where
  doctorId : Nat
  scheduledAt : Timestamp
  notes : String
  deriving DecidableEq, Repr

/-- BookAppointment: validate the body, require the doctor row, reject
when an appointment with the same doctor, appointment_date and
start_time already exists, otherwise insert a pending appointment
running 30 minutes from the requested instant and answer 201 with it. -/
def bookAppointment (db : DB) (userID : Nat) (req : BookRequest) : DB × HResp :=
  if req.doctorId == 0 || req.scheduledAt == Timestamp.zero then
    (db, ⟨400, errJson "validation failed for required fields"⟩)
  else
    match db.doctors.find? (fun d => d.id == req.doctorId) with
    | none => (db, ⟨404, errJson "Doctor not found"⟩)
    | some _ =>
      match db.appointments.find? (fun a =>
          a.doctorId == req.doctorId && a.appointmentDate == req.scheduledAt
            && a.startTime == req.scheduledAt) with
      | some _ => (db, ⟨409, errJson "Doctor is not available at the requested time"⟩)
      | none =>
        let appt : Appointment :=
          { id := db.nextApptId, patientId := userID, doctorId := req.doctorId,
            appointmentDate := req.scheduledAt, startTime := req.scheduledAt,
            endTime := req.scheduledAt.addMinutes 30,
            status := "pending", notes := req.notes }
        let db' : DB := { db with appointments := db.appointments ++ [appt], nextApptId := db.nextApptId + 1 }
        (db', ⟨201, apptJson appt⟩)

/-! ## Appointment lifecycle (UpdateAppointmentStatus, CancelAppointment) -/

/-- UpdateAppointmentStatus (part_015:59-97): resolve the doctor by the
authenticated user id, validate `oneof=confirmed cancelled completed`,
then a single UPDATE of the status column on the row matching the id
and that doctor; 404 when it touches no row. No check of the current
status anywhere. -/
def updateAppointmentStatus (db : DB) (userID apptID : Nat) (status : String) : DB × HResp :=
  match db.doctors.find? (fun d => d.userId == userID) with
  | none => (db, ⟨404, errJson "Doctor not found"⟩)
  | some doctor =>
    if !(status == "confirmed" || status == "cancelled" || status == "completed") then
      (db, ⟨400, errJson "validation failed for status"⟩)
    else if (db.appointments.filter (fun a => a.id == apptID && a.doctorId == doctor.id)).isEmpty then
      (db, ⟨404, errJson "Appointment not found"⟩)
    else
      let updated := db.appointments.map (fun a =>
        if a.id == apptID && a.doctorId == doctor.id then { a with status := status } else a)
      let db' : DB := { db with appointments := updated }
      (db', ⟨200, .jobj [("message", .jstr "Appointment status updated successfully")]⟩)

/-- CancelAppointment (part_015:261-289): fetch the appointment matching
the id and the authenticated patient, 400 when its status is already
cancelled, otherwise set the status of that row (by primary key) to
cancelled. -/
def cancelAppointment (db : DB) (userID apptID : Nat) : DB × HResp :=
  match db.appointments.find? (fun a => a.id == apptID && a.patientId == userID) with
  | none => (db, ⟨404, errJson "Appointment not found"⟩)
  | some appt =>
    if appt.status == "cancelled" then
      (db, ⟨400, errJson "Appointment is already cancelled"⟩)
    else
      let updated := db.appointments.map (fun a =>
        if a.id == appt.id then { a with status := "cancelled" } else a)
      let db' : DB := { db with appointments := updated }
      (db', ⟨200, .jobj [("message", .jstr "Appointment cancelled successfully")]⟩)

/-! ## Registration and login (part_016) -/

/-- The RegisterRequest body (part_016:13-24). -/
structure RegisterReq where
  name : String
  email : String
  password : String
  role : String
  specialization : String
  qualification : String
  experience : Int
  bio : String
  consultationFee : Int
  deriving DecidableEq, Repr

/-- Gin binding on RegisterRequest: name/email/password/role required,
email in email format (`emailValid` stands for Gin's format validator),
password at least 8 characters, role one of patient/doctor. -/
def validRegisterReq (emailValid : String → Bool) (r : RegisterReq) : Bool :=
  r.name != "" && r.email != "" && emailValid r.email
    && r.password.length ≥ 8 && (r.role == "patient" || r.role == "doctor")

/-- The AuthResponse body (part_016:31-39): token plus a user object. -/
def authRespJson (token : String) (u : User) : Json :=
  .jobj [("token", .jstr token),
    ("user", .jobj [("id", .jnum u.id), ("name", .jstr u.name),
      ("email", .jstr u.email), ("role", .jstr u.role)])]

/-- RegisterUser (part_016:42-118): bind/validate, reject an email that
already has a user row, otherwise insert the user (password stored as
the BeforeCreate hook's bcrypt hash, modelled by `hash`), insert a
doctor profile when the role is doctor, and answer 201 with a token
(`genToken` stands for the JWT middleware). -/
def registerUser (emailValid : String → Bool) (hash : String → String)
    (genToken : Nat → String → String → String) (db : DB) (r : RegisterReq) : DB × HResp :=
  if !(validRegisterReq emailValid r) then
    (db, ⟨400, errJson "validation failed for required fields"⟩)
  else if (db.users.find? (fun u => u.email == r.email)).isSome then
    (db, ⟨400, errJson "Email already registered"⟩)
  else
    let user : User :=
      { id := db.nextUserId, name := r.name, email := r.email,
        password := hash r.password, role := r.role, active := true }
    let db1 : DB := { db with users := db.users ++ [user], nextUserId := db.nextUserId + 1 }
    let doc : Doctor :=
      { id := db1.nextDoctorId, userId := user.id,
        specialization := r.specialization, qualification := r.qualification,
        experience := r.experience, bio := r.bio,
        consultationFee := r.consultationFee, available := true }
    let dbDoc : DB := { db1 with doctors := db1.doctors ++ [doc], nextDoctorId := db1.nextDoctorId + 1 }
    let db2 : DB := if r.role == "doctor" then dbDoc else db1
    (db2, ⟨201, authRespJson (genToken user.id user.email user.role) user⟩)

/-- The LoginRequest body (part_016:26-29). -/
structure LoginReq where
  email : String
  password : String
  deriving DecidableEq, Repr

/-- Gin binding on LoginRequest: email required and in email format,
password required. -/
def validLoginReq (emailValid : String → Bool) (r : LoginReq) : Bool :=
  r.email != "" && emailValid r.email && r.password != ""

/-- LoginUser (part_016:121-175): find the user by email (401 when
absent), check the password against the stored bcrypt hash (`check`
stands for bcrypt.CompareHashAndPassword; 401 on mismatch), reject a
deactivated account with 403, otherwise answer 200 with a token. -/
def loginUser (emailValid : String → Bool) (check : String → String → Bool)
    (genToken : Nat → String → String → String) (db : DB) (r : LoginReq) : HResp :=
  if !(validLoginReq emailValid r) then
    ⟨400, errJson "validation failed for required fields"⟩
  else
    match db.users.find? (fun u => u.email == r.email) with
    | none => ⟨401, errJson "Invalid email or password"⟩
    | some u =>
      if !(check u.password r.password) then ⟨401, errJson "Invalid email or password"⟩
      else if !u.active then ⟨403, errJson "Account is deactivated"⟩
      else ⟨200, authRespJson (genToken u.id u.email u.role) u⟩

/-! ## Listing endpoints (part_014, part_015, doctor_controller.go) -/

/-- Insertion step for the ORDER BY sort. -/
def insertBy (le : α → α → Bool) (x : α) : List α → List α
  | [] => [x]
  | y :: ys => if le x y then x :: y :: ys else y :: insertBy le x ys

/-- The sort the database applies for an ORDER BY clause with comparison
`le` (ties in unspecified order, as in SQL). -/
def sortBy (le : α → α → Bool) : List α → List α
  | [] => []
  | x :: xs => insertBy le x (sortBy le xs)

/-- Timestamp comparison (s ≤ t). -/
def Timestamp.le (s t : Timestamp) : Bool :=
  s.day < t.day || (s.day == t.day && s.minute ≤ t.minute)

/-- ORDER BY appointment_date DESC, start_time DESC. -/
def apptDescBefore (a b : Appointment) : Bool :=
  Timestamp.le b.appointmentDate a.appointmentDate
    && (!(b.appointmentDate == a.appointmentDate) || Timestamp.le b.startTime a.startTime)

/-- The optional query parameters of the appointment list endpoints;
an empty status string or a `none` date bound means the parameter was
absent and its WHERE clause is not added. -/
structure ApptQuery where
  status : String
  startDate : Option Timestamp
  endDate : Option Timestamp
  deriving Repr

/-- The shared filter chain: status equality, appointment_date lower
bound, appointment_date upper bound. -/
def filterAppointments (q : ApptQuery) (l : List Appointment) : List Appointment :=
  let l1 := if q.status == "" then l else l.filter (fun a => a.status == q.status)
  let l2 := match q.startDate with
    | none => l1
    | some d => l1.filter (fun a => Timestamp.le d a.appointmentDate)
  match q.endDate with
  | none => l2
  | some d => l2.filter (fun a => Timestamp.le a.appointmentDate d)

/-- GetDoctorAppointments (part_015:14-56): resolve the doctor from the
authenticated user, filter that doctor's appointments, and answer 200
with the bare JSON array of appointment rows. -/
def getDoctorAppointments (db : DB) (userID : Nat) (q : ApptQuery) : HResp :=
  match db.doctors.find? (fun d => d.userId == userID) with
  | none => ⟨404, errJson "Doctor not found"⟩
  | some doctor =>
    let appts := filterAppointments q (db.appointments.filter (fun a => a.doctorId == doctor.id))
    ⟨200, .jarr ((sortBy apptDescBefore appts).map apptJson)⟩

/-- GetPatientAppointments (part_015:221-258): filter the authenticated
patient's appointments and answer 200 with the bare JSON array. -/
def getPatientAppointments (db : DB) (userID : Nat) (q : ApptQuery) : HResp :=
  let appts := filterAppointments q (db.appointments.filter (fun a => a.patientId == userID))
  ⟨200, .jarr ((sortBy apptDescBefore appts).map apptJson)⟩

/-- ListAllAppointments (part_015:292-348): the query unconditionally
appends ORDER BY scheduled_at DESC (and optionally scheduled_at range
filters), but the appointments table — created by AutoMigrate of the
Appointment struct (main.go:32-39), which declares appointment_date,
start_time and end_time but no scheduled_at — has no such column, so
the Find at part_015:333 fails on every request and the handler always
answers 500; the code at part_015:338-346 that would build the
data/meta success body is unreachable. The request parameters are kept
so the embedding has the handler's interface. -/
def listAllAppointments (_db : DB) (_q : ApptQuery) (_doctorID _patientID : Option Nat)
    (_page _limit : Nat) : HResp :=
  ⟨500, errJson "Failed to fetch appointments"⟩

/-- JSON marshalling of a user row; the password column carries the
json:"-" tag (and the handlers additionally blank it), so it is never
part of the body. -/
def userJson (u : User) : Json :=
  .jobj [("id", .jnum u.id), ("name", .jstr u.name), ("email", .jstr u.email),
    ("role", .jstr u.role), ("active", .jbool u.active)]

/-- ListAllUsers (part_014:123-163): optional role/active filters,
page/limit pagination, flat data/total/page/limit body. -/
def listAllUsers (db : DB) (role active : String) (page limit : Nat) : HResp :=
  let l1 := if role == "" then db.users else db.users.filter (fun u => u.role == role)
  let l2 := if active == "" then l1 else l1.filter (fun u => u.active == (active == "true"))
  let offset := (page - 1) * limit
  let total := l2.length
  let pageItems := (l2.drop offset).take limit
  ⟨200, .jobj [("data", .jarr (pageItems.map userJson)), ("total", .jnum total),
    ("page", .jnum page), ("limit", .jnum limit)]⟩

/-- Whether `needle` is a leading run of `hay`. -/
def leadEq [BEq α] : List α → List α → Bool
  | [], _ => true
  | _ :: _, [] => false
  | a :: as, b :: bs => a == b && leadEq as bs

/-- Whether `needle` occurs contiguously inside `hay`. -/
def containsRun [BEq α] : (needle hay : List α) → Bool
  | needle, [] => leadEq needle []
  | needle, b :: bs => leadEq needle (b :: bs) || containsRun needle bs

/-- SQL ILIKE with wildcards on both sides: case-insensitive substring. -/
def ilikeContains (hay needle : String) : Bool :=
  containsRun needle.toLower.data hay.toLower.data

/-- The DoctorResponse row of ListDoctors (doctor_controller.go:45-66);
the name comes from the preloaded User row. -/
def doctorRespJson (db : DB) (d : Doctor) : Json :=
  .jobj [("id", .jnum d.id),
    ("name", .jstr (((db.users.find? (fun u => u.id == d.userId)).map User.name).getD "")),
    ("specialization", .jstr d.specialization), ("qualification", .jstr d.qualification),
    ("experience", .jnum d.experience), ("bio", .jstr d.bio),
    ("consultation_fee", .jnum d.consultationFee)]

/-- ListDoctors (doctor_controller.go:14-75): available doctors with
optional specialization filter and a users-join name ILIKE filter,
page/limit pagination, flat data/total/page/limit body. -/
def listDoctors (db : DB) (specialization nameQ : String) (page limit : Nat) : HResp :=
  let l0 := db.doctors.filter (fun d => d.available)
  let l1 := if specialization == "" then l0
    else l0.filter (fun d => d.specialization == specialization)
  let l2 := if nameQ == "" then l1
    else l1.filter (fun d =>
      db.users.any (fun u => u.id == d.userId && ilikeContains u.name nameQ))
  let offset := (page - 1) * limit
  let total := l2.length
  let pageItems := (l2.drop offset).take limit
  ⟨200, .jobj [("data", .jarr (pageItems.map (doctorRespJson db))), ("total", .jnum total),
    ("page", .jnum page), ("limit", .jnum limit)]⟩

/-! ## Concrete rows used to instantiate theorems with hypotheses -/

/-- A doctor row (id 1, user 10). -/
def exDoctor : Doctor := ⟨1, 10, "cardiology", "mbbs", 5, "bio", 100, true⟩

/-- The doctor's user row. -/
def exDoctorUser : User := ⟨10, "Dr A", "a@x.com", "hash-a", "doctor", true⟩

/-- A patient row (id 7). -/
def exPatient : User := ⟨7, "Pat", "p@x.com", "hash-p", "patient", true⟩

/-- A cancelled appointment of patient 7 with doctor 1 on day 20 at
minute 570 (09:30). -/
def exAppt : Appointment := ⟨1, 7, 1, ⟨20, 570⟩, ⟨20, 570⟩, ⟨20, 600⟩, "cancelled", ""⟩

/-- A store holding the two users, the doctor, and the cancelled
appointment. -/
def exDB : DB := ⟨[exDoctorUser, exPatient], [exDoctor], [exAppt], 11, 2, 2⟩

/-! ## Supporting lemmas -/

/-- Removing from a duplicate-free list the members of a duplicate-free
sublist of it drops its length by exactly the sublist's length. -/
theorem length_filter_not_contains (l bs : List String)
    (hl : l.Nodup) (hbs : bs.Nodup) (hsub : ∀ s ∈ bs, s ∈ l) :
    (l.filter (fun s => !(bs.contains s))).length = l.length - bs.length := by
  have hfil : (l.filter (fun s => !(bs.contains s))).Nodup := hl.filter _
  have hcard := List.toFinset_card_of_nodup hfil
  rw [List.toFinset_filter] at hcard
  have hset : l.toFinset.filter (fun s => !(bs.contains s)) = l.toFinset \ bs.toFinset := by
    ext s
    simp [Finset.mem_filter, Finset.mem_sdiff, List.mem_toFinset]
  rw [hset] at hcard
  have hsubset : bs.toFinset ⊆ l.toFinset := by
    intro s hs
    rw [List.mem_toFinset] at hs ⊢
    exact hsub s hs
  rw [Finset.card_sdiff hsubset, List.toFinset_card_of_nodup hl,
    List.toFinset_card_of_nodup hbs] at hcard
  omega

/-- A completed appointment of patient 7 with doctor 1 (id 2). -/
def exApptDone : Appointment := ⟨2, 7, 1, ⟨21, 570⟩, ⟨21, 570⟩, ⟨21, 600⟩, "completed", ""⟩

/-- A store holding the completed appointment instead. -/
def exDB2 : DB := ⟨[exDoctorUser, exPatient], [exDoctor], [exApptDone], 11, 2, 3⟩

/-- C1, counterexample: cancelled and completed are not terminal. The
cancelled appointment of `exDB` is moved to confirmed by the doctor's
UpdateAppointmentStatus, and the completed appointment of `exDB2` is
moved to cancelled by the patient's CancelAppointment with a 200. -/
theorem c1_counterexample :
    exAppt.status = "cancelled" ∧
    (updateAppointmentStatus exDB 10 1 "confirmed").1.appointments.map Appointment.status
      = ["confirmed"] ∧
    exApptDone.status = "completed" ∧
    (cancelAppointment exDB2 7 2).1.appointments.map Appointment.status = ["cancelled"] ∧
    (cancelAppointment exDB2 7 2).2.status = 200 :=
  ⟨rfl, rfl, rfl, rfl, rfl⟩

/-- C1, amended: UpdateAppointmentStatus enforces no state machine — for
any appointment of the doctor it overwrites the status with whichever of
confirmed/cancelled/completed was requested, regardless of the current
status; CancelAppointment rejects (400, state unchanged) only an
already-cancelled appointment and otherwise sets the status to
cancelled, including from completed. -/
theorem c1_lifecycle_transitions (db : DB) (userID apptID : Nat) (status : String) :
    (∀ doctor, db.doctors.find? (fun d => d.userId == userID) = some doctor →
      (status == "confirmed" || status == "cancelled" || status == "completed") = true →
      (db.appointments.filter (fun a => a.id == apptID && a.doctorId == doctor.id)).isEmpty = false →
      updateAppointmentStatus db userID apptID status =
        ({ db with appointments := db.appointments.map (fun a =>
            if a.id == apptID && a.doctorId == doctor.id then { a with status := status } else a) },
         ⟨200, .jobj [("message", .jstr "Appointment status updated successfully")]⟩)) ∧
    (∀ appt, db.appointments.find? (fun a => a.id == apptID && a.patientId == userID) = some appt →
      (appt.status = "cancelled" →
        cancelAppointment db userID apptID =
          (db, ⟨400, errJson "Appointment is already cancelled"⟩)) ∧
      (appt.status ≠ "cancelled" →
        cancelAppointment db userID apptID =
          ({ db with appointments := db.appointments.map (fun a =>
              if a.id == appt.id then { a with status := "cancelled" } else a) },
           ⟨200, .jobj [("message", .jstr "Appointment cancelled successfully")]⟩))) := by
  constructor
  · intro doctor hdoc hst hne
    simp [updateAppointmentStatus, hdoc, hst, hne]
  · intro appt hfind
    constructor
    · intro hcan
      simp [cancelAppointment, hfind, hcan]
    · intro hcan
      have hb : (appt.status == "cancelled") = false := by
        simpa using hcan
      simp [cancelAppointment, hfind, hb]

/-- C1 witness: at the concrete stores, the cancelled appointment is
overwritten to completed by the doctor, and the patient cancellation of
an already-cancelled appointment answers 400 with the store unchanged. -/
theorem c1_lifecycle_transitions_witness :
    updateAppointmentStatus exDB 10 1 "completed" =
      ({ exDB with appointments := exDB.appointments.map (fun a =>
          if a.id == 1 && a.doctorId == exDoctor.id then { a with status := "completed" } else a) },
       ⟨200, .jobj [("message", .jstr "Appointment status updated successfully")]⟩) ∧
    cancelAppointment exDB 7 1 = (exDB, ⟨400, errJson "Appointment is already cancelled"⟩) :=
  ⟨(c1_lifecycle_transitions exDB 10 1 "completed").1 exDoctor rfl (by decide) (by decide),
   ((c1_lifecycle_transitions exDB 7 1 "completed").2 exAppt rfl).1 rfl⟩

/-- C2: for an existing doctor and a well-formed date the availability
query answers 200 with exactly the sixteen 30-minute slot start-times
09:00 … 16:30 minus those whose string equals an existing appointment's
start-time, kept in ascending order; with N matching appointments at
distinct slot start-times the count is 16 − N. -/
theorem c2_availability_slots (db : DB) (doctorID day : Nat)
    (hdoc : (db.doctors.find? (fun d => d.id == doctorID)).isSome = true) :
    timeSlots = ["09:00", "09:30", "10:00", "10:30", "11:00", "11:30", "12:00", "12:30",
      "13:00", "13:30", "14:00", "14:30", "15:00", "15:30", "16:00", "16:30"] ∧
    getDoctorAvailability db doctorID (.valid day) =
      ⟨200, .jobj [("doctor_id", .jnum doctorID), ("date", .jnum day),
        ("available_slots", .jarr ((timeSlots.filter
          (fun s => !((bookedSlotStrings db doctorID day).contains s))).map .jstr))]⟩ ∧
    (timeSlots.filter (fun s => !((bookedSlotStrings db doctorID day).contains s))).Pairwise
      (fun a b => a.data < b.data) ∧
    ((bookedSlotStrings db doctorID day).Nodup →
      (∀ s ∈ bookedSlotStrings db doctorID day, s ∈ timeSlots) →
      (timeSlots.filter (fun s => !((bookedSlotStrings db doctorID day).contains s))).length
        = 16 - (bookedSlotStrings db doctorID day).length) := by
  obtain ⟨d, hd⟩ := Option.isSome_iff_exists.mp hdoc
  refine ⟨by decide, ?_, ?_, ?_⟩
  · simp [getDoctorAvailability, hd]
  · exact List.Pairwise.sublist (List.filter_sublist _) (by decide)
  · intro hnd hsub
    have h := length_filter_not_contains timeSlots (bookedSlotStrings db doctorID day)
      (by decide) hnd hsub
    have h16 : timeSlots.length = 16 := rfl
    rw [h16] at h
    exact h

/-- C2 witness: on the concrete store, doctor 1 on day 20 has one booked
slot (09:30), and the handler returns the other fifteen slots. -/
theorem c2_availability_slots_witness :
    getDoctorAvailability exDB 1 (.valid 20) =
      ⟨200, .jobj [("doctor_id", .jnum 1), ("date", .jnum 20),
        ("available_slots", .jarr ((timeSlots.filter
          (fun s => !((bookedSlotStrings exDB 1 20).contains s))).map .jstr))]⟩ ∧
    (timeSlots.filter (fun s => !((bookedSlotStrings exDB 1 20).contains s))).length
      = 16 - (bookedSlotStrings exDB 1 20).length := by
  have h := c2_availability_slots exDB 1 20 (by decide)
  exact ⟨h.2.1, h.2.2.2 (by decide) (by decide)⟩

/-- C3: booking failure modes with the state unchanged on every error:
a zero-valued required field answers 400, an unknown doctor answers
404, and an existing appointment of that doctor at the exact requested
start timestamp answers 409; in each case the returned store is the
input store, so no appointment row is inserted. -/
theorem c3_booking_failure_modes (db : DB) (userID : Nat) (req : BookRequest) :
    ((req.doctorId == 0 || req.scheduledAt == Timestamp.zero) = true →
      bookAppointment db userID req = (db, ⟨400, errJson "validation failed for required fields"⟩)) ∧
    ((req.doctorId == 0 || req.scheduledAt == Timestamp.zero) = false →
      db.doctors.find? (fun d => d.id == req.doctorId) = none →
      bookAppointment db userID req = (db, ⟨404, errJson "Doctor not found"⟩)) ∧
    ((req.doctorId == 0 || req.scheduledAt == Timestamp.zero) = false →
      ∀ doc appt, db.doctors.find? (fun d => d.id == req.doctorId) = some doc →
        db.appointments.find? (fun a => a.doctorId == req.doctorId
          && a.appointmentDate == req.scheduledAt && a.startTime == req.scheduledAt) = some appt →
        bookAppointment db userID req =
          (db, ⟨409, errJson "Doctor is not available at the requested time"⟩)) := by
  refine ⟨?_, ?_, ?_⟩
  · intro hv
    simp [bookAppointment, hv]
  · intro hv hd
    simp [bookAppointment, hv, hd]
  · intro hv doc appt hd ha
    simp [bookAppointment, hv, hd, ha]

/-- C3 witness: on the concrete store, booking doctor 1 at the start
timestamp of the existing appointment answers 409 and leaves the store
unchanged. -/
theorem c3_booking_failure_modes_witness :
    bookAppointment exDB 7 ⟨1, ⟨20, 570⟩, "checkup"⟩
      = (exDB, ⟨409, errJson "Doctor is not available at the requested time"⟩) :=
  (c3_booking_failure_modes exDB 7 ⟨1, ⟨20, 570⟩, "checkup"⟩).2.2 (by decide) exDoctor exAppt rfl rfl

/-- The appointment row BookAppointment inserts on success. -/
def bookedRow (db : DB) (userID : Nat) (req : BookRequest) : Appointment :=
  { id := db.nextApptId, patientId := userID, doctorId := req.doctorId,
    appointmentDate := req.scheduledAt, startTime := req.scheduledAt,
    endTime := req.scheduledAt.addMinutes 30, status := "pending", notes := req.notes }

/-- C4: when the request validates, the doctor exists and no appointment
occupies the exact start timestamp, the handler appends exactly one new
appointment for the authenticated patient with status pending and end
time = start + 30 minutes, and answers 201 with that appointment. -/
theorem c4_booking_success (db : DB) (userID : Nat) (req : BookRequest)
    (hval : (req.doctorId == 0 || req.scheduledAt == Timestamp.zero) = false)
    (hdoc : (db.doctors.find? (fun d => d.id == req.doctorId)).isSome = true)
    (hfree : db.appointments.find? (fun a => a.doctorId == req.doctorId
      && a.appointmentDate == req.scheduledAt && a.startTime == req.scheduledAt) = none) :
    bookAppointment db userID req =
      ({ db with appointments := db.appointments ++ [bookedRow db userID req], nextApptId := db.nextApptId + 1 },
       ⟨201, apptJson (bookedRow db userID req)⟩) ∧
    (bookedRow db userID req).status = "pending" ∧
    (bookedRow db userID req).patientId = userID ∧
    (bookedRow db userID req).startTime = req.scheduledAt ∧
    (bookedRow db userID req).endTime = req.scheduledAt.addMinutes 30 ∧
    (bookAppointment db userID req).1.appointments.length = db.appointments.length + 1 := by
  obtain ⟨d, hd⟩ := Option.isSome_iff_exists.mp hdoc
  have hmain : bookAppointment db userID req =
      ({ db with appointments := db.appointments ++ [bookedRow db userID req], nextApptId := db.nextApptId + 1 },
       ⟨201, apptJson (bookedRow db userID req)⟩) := by
    simp [bookAppointment, hval, hd, hfree, bookedRow]
  refine ⟨hmain, rfl, rfl, rfl, rfl, ?_⟩
  rw [hmain]
  simp

/-- C4 witness: on the concrete store, booking doctor 1 at the free
minute 600 of day 20 appends the pending row and answers 201 with it. -/
theorem c4_booking_success_witness :
    bookAppointment exDB 7 ⟨1, ⟨20, 600⟩, "checkup"⟩ =
      ({ exDB with appointments := exDB.appointments ++ [bookedRow exDB 7 ⟨1, ⟨20, 600⟩, "checkup"⟩], nextApptId := exDB.nextApptId + 1 },
       ⟨201, apptJson (bookedRow exDB 7 ⟨1, ⟨20, 600⟩, "checkup"⟩)⟩) ∧
    (bookedRow exDB 7 ⟨1, ⟨20, 600⟩, "checkup"⟩).status = "pending" ∧
    (bookedRow exDB 7 ⟨1, ⟨20, 600⟩, "checkup"⟩).endTime = Timestamp.addMinutes ⟨20, 600⟩ 30 := by
  have h := c4_booking_success exDB 7 ⟨1, ⟨20, 600⟩, "checkup"⟩ (by decide) (by decide) rfl
  exact ⟨h.1, h.2.1, h.2.2.2.2.1⟩

/-- C5: patient-initiated cancellation answers 404 when no appointment
with that id belongs to the requesting patient, and answers 400 with
the store completely unchanged when the matching appointment is
already cancelled. -/
theorem c5_cancel_guard (db : DB) (userID apptID : Nat) :
    (db.appointments.find? (fun a => a.id == apptID && a.patientId == userID) = none →
      cancelAppointment db userID apptID = (db, ⟨404, errJson "Appointment not found"⟩)) ∧
    (∀ appt, db.appointments.find? (fun a => a.id == apptID && a.patientId == userID) = some appt →
      appt.status = "cancelled" →
      cancelAppointment db userID apptID = (db, ⟨400, errJson "Appointment is already cancelled"⟩)) := by
  constructor
  · intro hnone
    simp [cancelAppointment, hnone]
  · intro appt hfind hcan
    simp [cancelAppointment, hfind, hcan]

/-- C5 witness: on the concrete store, patient 8 owns no appointment 1
and gets 404; patient 7 cancelling the already-cancelled appointment 1
gets 400 and the store is returned unchanged. -/
theorem c5_cancel_guard_witness :
    cancelAppointment exDB 8 1 = (exDB, ⟨404, errJson "Appointment not found"⟩) ∧
    cancelAppointment exDB 7 1 = (exDB, ⟨400, errJson "Appointment is already cancelled"⟩) :=
  ⟨(c5_cancel_guard exDB 8 1).1 rfl, (c5_cancel_guard exDB 7 1).2 exAppt rfl rfl⟩

/-! ## Response shapes (C6) -/

/-- The flat collection body the spec describes: data, total, page,
limit at top level. -/
def isFlatCollectionShape : Json → Bool
  | .jobj [("data", .jarr _), ("total", .jnum _), ("page", .jnum _), ("limit", .jnum _)] => true
  | _ => false

/-- A bare JSON array body. -/
def isArrShape : Json → Bool
  | .jarr _ => true
  | _ => false

/-- An error body of the single-key form with an "error" string. -/
def isErrorShape : Json → Bool
  | .jobj [("error", .jstr _)] => true
  | _ => false

/-- C6, counterexample: the patient appointment list answers 200 with a
bare JSON array, and the admin appointment list never answers
successfully at all — its query names the nonexistent scheduled_at
column, so it answers 500 with an error object; neither is the flat
data/total/page/limit object the claim requires of every
collection-returning endpoint. -/
theorem c6_counterexample :
    (getPatientAppointments exDB 7 ⟨"", none, none⟩).status = 200 ∧
    isFlatCollectionShape (getPatientAppointments exDB 7 ⟨"", none, none⟩).body = false ∧
    listAllAppointments exDB ⟨"", none, none⟩ none none 1 10
      = ⟨500, errJson "Failed to fetch appointments"⟩ ∧
    isFlatCollectionShape (listAllAppointments exDB ⟨"", none, none⟩ none none 1 10).body = false :=
  ⟨rfl, rfl, rfl, rfl⟩

/-- C6, amended: the doctor listing and the admin user list answer 200
with the flat data/total/page/limit object; the admin appointment list
always answers 500 with an error object, because its query names a
scheduled_at column the AutoMigrated appointments table does not have;
the doctor and patient appointment lists answer 200 with a bare JSON
array (or, for the doctor list, 404 with an error object when the user
has no doctor row); every error body is an object with the single key
"error" bound to a string. -/
theorem c6_response_shapes (db : DB) (q : ApptQuery) (uid : Nat)
    (sp nm role act : String) (dID pID : Option Nat) (page limit : Nat) :
    ((listDoctors db sp nm page limit).status = 200 ∧
      isFlatCollectionShape (listDoctors db sp nm page limit).body = true) ∧
    ((listAllUsers db role act page limit).status = 200 ∧
      isFlatCollectionShape (listAllUsers db role act page limit).body = true) ∧
    (listAllAppointments db q dID pID page limit
        = ⟨500, errJson "Failed to fetch appointments"⟩ ∧
      isErrorShape (listAllAppointments db q dID pID page limit).body = true) ∧
    ((getPatientAppointments db uid q).status = 200 ∧
      isArrShape (getPatientAppointments db uid q).body = true) ∧
    (((getDoctorAppointments db uid q).status = 200 ∧
        isArrShape (getDoctorAppointments db uid q).body = true) ∨
     ((getDoctorAppointments db uid q).status = 404 ∧
        isErrorShape (getDoctorAppointments db uid q).body = true)) := by
  refine ⟨⟨rfl, rfl⟩, ⟨rfl, rfl⟩, ⟨rfl, rfl⟩, ⟨rfl, rfl⟩, ?_⟩
  cases hfind : db.doctors.find? (fun d => d.userId == uid) with
  | none =>
    right
    simp [getDoctorAppointments, hfind, isErrorShape, errJson]
  | some doctor =>
    left
    simp [getDoctorAppointments, hfind, isArrShape]

/-- C7: a registration request whose email already belongs to a user
answers 400 and returns the store unchanged, so no user row is inserted
and email uniqueness is preserved. -/
theorem c7_duplicate_email_registration (emailValid : String → Bool) (hash : String → String)
    (genToken : Nat → String → String → String) (db : DB) (r : RegisterReq)
    (hdup : (db.users.find? (fun u => u.email == r.email)).isSome = true) :
    (registerUser emailValid hash genToken db r).2.status = 400 ∧
    (registerUser emailValid hash genToken db r).1 = db := by
  cases hv : validRegisterReq emailValid r with
  | false => simp [registerUser, hv]
  | true => simp [registerUser, hv, hdup]

/-- C7 witness: registering a second user with the fixture patient's
email answers 400 and leaves the store unchanged. -/
theorem c7_duplicate_email_registration_witness :
    (registerUser (fun _ => true) (fun p => p) (fun _ _ _ => "tok") exDB
      ⟨"Eve", "p@x.com", "password1", "patient", "", "", 0, "", 0⟩).2.status = 400 ∧
    (registerUser (fun _ => true) (fun p => p) (fun _ _ _ => "tok") exDB
      ⟨"Eve", "p@x.com", "password1", "patient", "", "", 0, "", 0⟩).1 = exDB :=
  c7_duplicate_email_registration (fun _ => true) (fun p => p) (fun _ _ _ => "tok") exDB
    ⟨"Eve", "p@x.com", "password1", "patient", "", "", 0, "", 0⟩ (by decide)

/-- C8: for a well-formed login request, an unknown email answers 401;
with the account found, a failing password check answers 401, a passing
check against a deactivated account answers 403, and a passing check
against an active account answers 200 with a token. -/
theorem c8_login_outcomes (emailValid : String → Bool) (check : String → String → Bool)
    (genToken : Nat → String → String → String) (db : DB) (r : LoginReq)
    (hv : validLoginReq emailValid r = true) :
    (db.users.find? (fun u => u.email == r.email) = none →
      loginUser emailValid check genToken db r = ⟨401, errJson "Invalid email or password"⟩) ∧
    (∀ u, db.users.find? (fun u => u.email == r.email) = some u →
      (check u.password r.password = false →
        loginUser emailValid check genToken db r = ⟨401, errJson "Invalid email or password"⟩) ∧
      (check u.password r.password = true → u.active = false →
        loginUser emailValid check genToken db r = ⟨403, errJson "Account is deactivated"⟩) ∧
      (check u.password r.password = true → u.active = true →
        loginUser emailValid check genToken db r =
          ⟨200, authRespJson (genToken u.id u.email u.role) u⟩)) := by
  constructor
  · intro hnone
    simp [loginUser, hv, hnone]
  · intro u hu
    refine ⟨?_, ?_, ?_⟩
    · intro hchk
      simp [loginUser, hv, hu, hchk]
    · intro hchk hact
      simp [loginUser, hv, hu, hchk, hact]
    · intro hchk hact
      simp [loginUser, hv, hu, hchk, hact]

/-- C8 witness: with a password check that accepts the fixture patient's
stored hash, logging in as the active patient answers 200 with the
token; a check that rejects answers 401. -/
theorem c8_login_outcomes_witness :
    loginUser (fun _ => true) (fun h _ => h == "hash-p") (fun _ _ _ => "tok") exDB
      ⟨"p@x.com", "pw"⟩ = ⟨200, authRespJson "tok" exPatient⟩ ∧
    loginUser (fun _ => true) (fun _ _ => false) (fun _ _ _ => "tok") exDB
      ⟨"p@x.com", "pw"⟩ = ⟨401, errJson "Invalid email or password"⟩ :=
  ⟨((c8_login_outcomes (fun _ => true) (fun h _ => h == "hash-p") (fun _ _ _ => "tok") exDB
      ⟨"p@x.com", "pw"⟩ (by decide)).2 exPatient rfl).2.2 rfl rfl,
   ((c8_login_outcomes (fun _ => true) (fun _ _ => false) (fun _ _ _ => "tok") exDB
      ⟨"p@x.com", "pw"⟩ (by decide)).2 exPatient rfl).1 rfl⟩

/-- C9: a cancelled appointment still occupies its slot — neither the
availability query nor the booking conflict check filters by status, so
its start-time slot is excluded from the availability list and a new
booking at that exact start timestamp is rejected with 409 and the
store unchanged. -/
theorem c9_cancelled_still_occupies (db : DB) (did day uid : Nat)
    (appt : Appointment) (req : BookRequest)
    (hmem : appt ∈ db.appointments) (hstat : appt.status = "cancelled")
    (hdid : appt.doctorId = did) (hday : appt.appointmentDate.day = day) :
    fmtHM appt.startTime.minute ∉
      timeSlots.filter (fun s => !((bookedSlotStrings db did day).contains s)) ∧
    ((db.doctors.find? (fun d => d.id == did)).isSome = true →
      getDoctorAvailability db did (.valid day) =
        ⟨200, .jobj [("doctor_id", .jnum did), ("date", .jnum day),
          ("available_slots", .jarr ((timeSlots.filter
            (fun s => !((bookedSlotStrings db did day).contains s))).map .jstr))]⟩) ∧
    ((db.doctors.find? (fun d => d.id == did)).isSome = true →
      req.doctorId = did → req.scheduledAt = appt.appointmentDate →
      appt.startTime = appt.appointmentDate →
      (req.doctorId == 0 || req.scheduledAt == Timestamp.zero) = false →
      (bookAppointment db uid req).2.status = 409 ∧ (bookAppointment db uid req).1 = db) := by
  have hbooked : fmtHM appt.startTime.minute ∈ bookedSlotStrings db did day := by
    apply List.mem_map_of_mem
    exact List.mem_filter_of_mem hmem (by simp [hdid, hday])
  refine ⟨?_, ?_, ?_⟩
  · intro hin
    rw [List.mem_filter] at hin
    simp [hbooked] at hin
  · intro hdoc
    obtain ⟨d, hd⟩ := Option.isSome_iff_exists.mp hdoc
    simp [getDoctorAvailability, hd]
  · intro hdoc hrdid hrsched hrstart hval
    obtain ⟨d, hd⟩ := Option.isSome_iff_exists.mp hdoc
    rw [← hrdid] at hd
    have hconf : (db.appointments.find? (fun a => a.doctorId == req.doctorId
        && a.appointmentDate == req.scheduledAt && a.startTime == req.scheduledAt)).isSome = true := by
      rw [List.find?_isSome]
      refine ⟨appt, hmem, ?_⟩
      simp [hrdid, hdid, hrsched, hrstart]
    obtain ⟨a, ha⟩ := Option.isSome_iff_exists.mp hconf
    constructor
    · simp [bookAppointment, hval, hd, ha]
    · simp [bookAppointment, hval, hd, ha]

/-- C9 witness: on the concrete store, slot 09:30 (the cancelled
appointment's start time) is absent from the availability list, and a
booking at that exact timestamp answers 409 with the store unchanged. -/
theorem c9_cancelled_still_occupies_witness :
    "09:30" ∉ timeSlots.filter (fun s => !((bookedSlotStrings exDB 1 20).contains s)) ∧
    (bookAppointment exDB 7 ⟨1, ⟨20, 570⟩, "n"⟩).2.status = 409 ∧
    (bookAppointment exDB 7 ⟨1, ⟨20, 570⟩, "n"⟩).1 = exDB := by
  have h := c9_cancelled_still_occupies exDB 1 20 7 exAppt ⟨1, ⟨20, 570⟩, "n"⟩
    (by decide) rfl rfl rfl
  exact ⟨h.1, h.2.2 (by decide) rfl rfl rfl (by decide)⟩

/-- C10: registration only accepts the roles patient and doctor; any
other role (such as admin) fails validation with 400 and the store is
returned unchanged, so no admin account can be created through the
public endpoint. -/
theorem c10_role_validation (emailValid : String → Bool) (hash : String → String)
    (genToken : Nat → String → String → String) (db : DB) (r : RegisterReq)
    (hrole : r.role ≠ "patient" ∧ r.role ≠ "doctor") :
    (registerUser emailValid hash genToken db r).2.status = 400 ∧
    (registerUser emailValid hash genToken db r).1 = db := by
  have hv : validRegisterReq emailValid r = false := by
    simp [validRegisterReq, hrole.1, hrole.2]
  simp [registerUser, hv]

/-- C10 witness: registering with role "admin" answers 400 and leaves
the store unchanged. -/
theorem c10_role_validation_witness :
    (registerUser (fun _ => true) (fun p => p) (fun _ _ _ => "tok") exDB
      ⟨"Eve", "e@x.com", "password1", "admin", "", "", 0, "", 0⟩).2.status = 400 ∧
    (registerUser (fun _ => true) (fun p => p) (fun _ _ _ => "tok") exDB
      ⟨"Eve", "e@x.com", "password1", "admin", "", "", 0, "", 0⟩).1 = exDB :=
  c10_role_validation (fun _ => true) (fun p => p) (fun _ _ _ => "tok") exDB
    ⟨"Eve", "e@x.com", "password1", "admin", "", "", 0, "", 0⟩ ⟨by decide, by decide⟩

end Booking
